import Mathlib

/-!
Verification of the EMS (employee management system) session / OTP /
attendance core, shallowly embedded from `mongo_models.py` and
`authentication/views_mongo.py`.

The Mongo store is modelled as lists of documents kept in insertion
order.  `find_one` without a sort option returns the first matching
document; `find_one` with a descending sort on a field returns a
document maximising that field; `insert_one` appends; `delete_one`
removes the first match; `update_one` rewrites the first match;
`update_many` / `delete_many` act on all matches.  The wall clock is a
parameter `t : Int` (seconds of true UTC); `datetime.utcnow()` reads
`t` and `get_ist_time` reads `t + 19800`.  Password hashing is an
injective stand-in for `make_password`.  The random 6-digit OTP code is
passed as an explicit argument (the RNG draw treated as an oracle).
-/

namespace EMS

/-- Offset of UTC+5:30 in seconds. -/
def istOffset : Int := 19800

/-- `get_ist_time` from `mongo_models.py`: `datetime.utcnow() + timedelta(hours=5, minutes=30)`. -/
def get_ist_time (t : Int) : Int := t + istOffset

/-- `datetime.utcnow()` as used in the punch views. -/
def utcnow (t : Int) : Int := t

/-- Stand-in for Django's `make_password` (deterministic, injective). -/
def make_password (p : String) : String := "pbkdf2-sha256$" ++ p

/-- Stand-in for Django's `check_password`. -/
def check_password (input stored : String) : Bool := stored == make_password input

/-- A document of the `users` collection. -/
structure UserDoc where
  oid : Nat
  username : String
  email : String
  password : String
  is_verified : Bool
  role : String
  created_at : Int
  updated_at : Int
deriving Repr, DecidableEq

/-- A document of the `otps` collection. -/
structure OTPDoc where
  oid : Nat
  email : String
  otp : String
  purpose : String
  is_used : Bool
  created_at : Int
deriving Repr, DecidableEq

/-- A document of the `login_sessions` collection. -/
structure LoginSessionDoc where
  oid : Nat
  user_id : Nat
  device_type : String
  login_time : Int
  is_active : Bool
deriving Repr, DecidableEq

/-- A document of the `logout_sessions` collection. -/
structure LogoutSessionDoc where
  oid : Nat
  user_id : Nat
  device_type : String
  logout_time : Int
deriving Repr, DecidableEq

/-- A document of the `punched_in`, `punched_out` or `attendance`
collections (the punch-out facet is absent on fresh punch-in rows). -/
structure PunchDoc where
  oid : Nat
  user_id : Nat
  username : String
  email : String
  punched_in_date : String
  punched_in_time : String
  location : String
  latitude : String
  longitude : String
  created_at : Int
  punched_out_date : Option String
  punched_out_time : Option String
  punched_out_location : Option String
  punched_out_latitude : Option String
  punched_out_longitude : Option String
  punched_out_at : Option Int
deriving Repr, DecidableEq

/-- The whole Mongo database, one list per collection, in insertion
order, plus the next ObjectId to be handed out by `insert_one`. -/
structure Store where
  users : List UserDoc
  otps : List OTPDoc
  login_sessions : List LoginSessionDoc
  logout_sessions : List LogoutSessionDoc
  punched_in : List PunchDoc
  punched_out : List PunchDoc
  attendance : List PunchDoc
  nextId : Nat
deriving Repr, DecidableEq

/-- `delete_one`: remove the first document matching the filter. -/
def deleteOne (p : α → Bool) : List α → List α
  | [] => []
  | x :: xs => if p x then xs else x :: deleteOne p xs

/-- `update_one`: rewrite the first document matching the filter. -/
def updateOne (p : α → Bool) (f : α → α) : List α → List α
  | [] => []
  | x :: xs => if p x then f x :: xs else x :: updateOne p f xs

/-- `update_many`: rewrite every document matching the filter. -/
def updateMany (p : α → Bool) (f : α → α) (l : List α) : List α :=
  l.map fun x => if p x then f x else x

/-- `find_one` with a descending sort on `key`: some document matching
the filter with maximal key (the earliest-inserted one among ties). -/
def findOneSortDesc (key : α → Int) (p : α → Bool) (l : List α) : Option α :=
  (l.filter p).foldl
    (fun acc x =>
      match acc with
      | none => some x
      | some y => if key y < key x then some x else some y)
    none

/-- The error kinds surfaced by the views (each corresponds to one of
the distinct error responses in `views_mongo.py`). -/
inductive Err where
  | DuplicateVerifiedUser
  | RecentUnverifiedSignupPending
  | InvalidOTP
  | IncorrectOTP
  | OTPExpired
  | UserNotFound
  | InvalidCredentials
  | EmailNotVerified
  | SessionInvalidated
  | NotLoggedIn
  | AlreadyPunchedIn
  | AlreadyPunchedInToday
  | NoPunchInFound
deriving Repr, DecidableEq

/-- `MongoOTP.cleanup_otps_for_email`: delete all OTPs for an email. -/
def cleanup_otps_for_email (email : String) (s : Store) : Store :=
  { s with otps := s.otps.filter fun o => !(o.email == email) }

/-- `MongoOTP.cleanup_expired_otps` (no email argument): delete all
OTPs with `created_at < get_ist_time() - 10 minutes`. -/
def cleanup_expired_otps (t : Int) (s : Store) : Store :=
  { s with otps := s.otps.filter fun o => !(decide (o.created_at < get_ist_time t - 600)) }

/-- `MongoUser.cleanup_unverified_users` with an email argument: delete
the OTPs for that email, then delete every unverified user row for the
email older than 10 minutes. -/
def cleanup_unverified_users (email : String) (t : Int) (s : Store) : Store :=
  let s := cleanup_otps_for_email email s
  { s with users := s.users.filter fun u =>
      !(!u.is_verified && decide (u.created_at < get_ist_time t - 600) && u.email == email) }

/-- `MongoUser.create_user`: cleanup for the email first; then reject a
verified duplicate, or a recent (< 10 min) unverified duplicate;
otherwise delete any remaining stale unverified row and insert the new
unverified user with a hashed password. -/
def create_user (username email password role : String) (t : Int) (s : Store) :
    Except Err UserDoc × Store :=
  let s := cleanup_unverified_users email t s
  match s.users.find? (fun u => u.email == email) with
  | some existing =>
    if existing.is_verified then
      (Except.error Err.DuplicateVerifiedUser, s)
    else if get_ist_time t - existing.created_at < 600 then
      (Except.error Err.RecentUnverifiedSignupPending, s)
    else
      let s1 := { s with users := deleteOne (fun u => u.email == email && !u.is_verified) s.users }
      let doc : UserDoc :=
        { oid := s1.nextId, username := username, email := email,
          password := make_password password, is_verified := false, role := role,
          created_at := get_ist_time t, updated_at := get_ist_time t }
      (Except.ok doc, { s1 with users := s1.users ++ [doc], nextId := s1.nextId + 1 })
  | none =>
    let doc : UserDoc :=
      { oid := s.nextId, username := username, email := email,
        password := make_password password, is_verified := false, role := role,
        created_at := get_ist_time t, updated_at := get_ist_time t }
    (Except.ok doc, { s with users := s.users ++ [doc], nextId := s.nextId + 1 })

/-- `MongoUser.get_by_email`: `find_one` on the `users` collection. -/
def get_by_email (email : String) (s : Store) : Option UserDoc :=
  s.users.find? fun u => u.email == email

/-- `MongoUser.save`: stamp `updated_at` with the IST clock and rewrite
the row with the given `_id`. -/
def userSave (u : UserDoc) (t : Int) (s : Store) : Store :=
  let u1 := { u with updated_at := get_ist_time t }
  { s with users := updateOne (fun x => x.oid == u.oid) (fun _ => u1) s.users }

/-- `MongoUser.authenticate`: lookup by email, then check the password
hash; `None` on either failure. -/
def authenticate (email password : String) (s : Store) : Option UserDoc :=
  match get_by_email email s with
  | some u => if check_password password u.password then some u else none
  | none => none

/-- `MongoOTP.create_otp`: run the global expired-OTP sweep, then
insert a new unused OTP stamped with the IST clock.  The freshly drawn
6-digit code is the `code` argument. -/
def create_otp (email purpose code : String) (t : Int) (s : Store) : OTPDoc × Store :=
  let s := cleanup_expired_otps t s
  let doc : OTPDoc :=
    { oid := s.nextId, email := email, otp := code, purpose := purpose,
      is_used := false, created_at := get_ist_time t }
  (doc, { s with otps := s.otps ++ [doc], nextId := s.nextId + 1 })

/-- `MongoOTP.get_latest_unused`: `find_one` with a descending sort on
`created_at` over the unused OTPs for the email and purpose. -/
def get_latest_unused (email purpose : String) (s : Store) : Option OTPDoc :=
  findOneSortDesc (fun o => o.created_at)
    (fun o => o.email == email && o.purpose == purpose && !o.is_used) s.otps

/-- `MongoOTP.is_valid`: unused and created strictly less than 600
seconds ago on the IST clock. -/
def is_valid (o : OTPDoc) (t : Int) : Bool :=
  if o.is_used then false
  else decide (get_ist_time t - o.created_at < 600)

/-- `MongoLoginSession.create_session`: insert an active session
stamped with the IST clock. -/
def createLoginSession (uid : Nat) (device_type : String) (t : Int) (s : Store) :
    LoginSessionDoc × Store :=
  let doc : LoginSessionDoc :=
    { oid := s.nextId, user_id := uid, device_type := device_type,
      login_time := get_ist_time t, is_active := true }
  (doc, { s with login_sessions := s.login_sessions ++ [doc], nextId := s.nextId + 1 })

/-- `MongoLogoutSession.create_session`: insert a logout row stamped
with the IST clock. -/
def createLogoutSession (uid : Nat) (device_type : String) (t : Int) (s : Store) : Store :=
  let doc : LogoutSessionDoc :=
    { oid := s.nextId, user_id := uid, device_type := device_type,
      logout_time := get_ist_time t }
  { s with logout_sessions := s.logout_sessions ++ [doc], nextId := s.nextId + 1 }

/-- `MongoLoginSession.get_latest_login`: `find_one` sorted by
`login_time` descending over the user's sessions. -/
def get_latest_login (uid : Nat) (s : Store) : Option LoginSessionDoc :=
  findOneSortDesc (fun l => l.login_time) (fun l => l.user_id == uid) s.login_sessions

/-- `MongoLoginSession.get_active_session`: `find_one` sorted by
`login_time` descending over the user's active sessions. -/
def get_active_session (uid : Nat) (s : Store) : Option LoginSessionDoc :=
  findOneSortDesc (fun l => l.login_time) (fun l => l.user_id == uid && l.is_active)
    s.login_sessions

/-- `MongoLogoutSession.get_latest_logout`: `find_one` sorted by
`logout_time` descending over the user's logout rows. -/
def get_latest_logout (uid : Nat) (s : Store) : Option LogoutSessionDoc :=
  findOneSortDesc (fun l => l.logout_time) (fun l => l.user_id == uid) s.logout_sessions

/-- The `verify_otp` view (signup purpose): latest unused OTP absent or
code mismatch fail with `InvalidOTP`; an invalid (expired) OTP fails
with `OTPExpired`; otherwise the OTP row is deleted and the user marked
verified (a missing user surfaces `UserNotFound` after the deletion). -/
def verify_otp (email otp_code : String) (t : Int) (s : Store) : Except Err Unit × Store :=
  match get_latest_unused email "signup" s with
  | none => (Except.error Err.InvalidOTP, s)
  | some o =>
    if !(o.otp == otp_code) then (Except.error Err.InvalidOTP, s)
    else if !(is_valid o t) then (Except.error Err.OTPExpired, s)
    else
      let s1 := { s with otps := deleteOne (fun x => x.oid == o.oid) s.otps }
      match get_by_email email s1 with
      | some u => (Except.ok (), userSave { u with is_verified := true } t s1)
      | none => (Except.error Err.UserNotFound, s1)

/-- The `signup` view: `create_user`, then issue a signup OTP (the
email send is external). -/
def signup (username email password code : String) (t : Int) (s : Store) :
    Except Err Unit × Store :=
  match create_user username email password "employee" t s with
  | (Except.error e, s1) => (Except.error e, s1)
  | (Except.ok _, s1) =>
    let r := create_otp email "signup" code t s1
    (Except.ok (), r.2)

/-- The `login` view: authenticate, reject unverified users; then mark
every active session of the user inactive, creating one logout row per
deactivated session (stamped with the request's `device_type`), and
insert the new active session. -/
def login (email password device_type : String) (t : Int) (s : Store) :
    Except Err Unit × Store :=
  match authenticate email password s with
  | some u =>
    if u.is_verified then
      let actives := s.login_sessions.filter fun ls => ls.user_id == u.oid && ls.is_active
      let deactivated := updateMany (fun ls => ls.user_id == u.oid && ls.is_active)
        (fun ls => { ls with is_active := false }) s.login_sessions
      let s1 := { s with login_sessions := deactivated }
      let s2 := actives.foldl (fun st _ => createLogoutSession u.oid device_type t st) s1
      let r := createLoginSession u.oid device_type t s2
      (Except.ok (), r.2)
    else (Except.error Err.EmailNotVerified, s)
  | none => (Except.error Err.InvalidCredentials, s)

/-- The `logout` view: resolve the user from the request, record one
logout row, then deactivate all of the user's active sessions. -/
def logout (email device_type : String) (t : Int) (s : Store) : Except Err Unit × Store :=
  match get_by_email email s with
  | none => (Except.error Err.UserNotFound, s)
  | some u =>
    let s1 := createLogoutSession u.oid device_type t s
    let deactivated := updateMany (fun ls => ls.user_id == u.oid && ls.is_active)
      (fun ls => { ls with is_active := false }) s1.login_sessions
    (Except.ok (), { s1 with login_sessions := deactivated })

/-- The `forgot_password` view: the user must exist (verified or not);
then a `forgot_password` OTP is issued. -/
def forgot_password (email code : String) (t : Int) (s : Store) : Except Err Unit × Store :=
  match get_by_email email s with
  | none => (Except.error Err.UserNotFound, s)
  | some _ =>
    let r := create_otp email "forgot_password" code t s
    (Except.ok (), r.2)

/-- The session guard of the `reset_password` view: reject when the
user exists and the latest logout row is strictly newer than the latest
login row. -/
def resetGuardRejects (email : String) (s : Store) : Bool :=
  match get_by_email email s with
  | some u =>
    match get_latest_logout u.oid s, get_latest_login u.oid s with
    | some lo, some li => decide (li.login_time < lo.logout_time)
    | _, _ => false
  | none => false

/-- The `reset_password` view: session guard; then latest unused
`forgot_password` OTP absent fails with `InvalidOTP`, a code mismatch
with `IncorrectOTP`; otherwise the OTP row is deleted and the user's
password hash replaced.  The view performs no expiry check on this
path. -/
def reset_password (email otp_code new_password : String) (t : Int) (s : Store) :
    Except Err Unit × Store :=
  if resetGuardRejects email s then (Except.error Err.SessionInvalidated, s)
  else
    match get_latest_unused email "forgot_password" s with
    | none => (Except.error Err.InvalidOTP, s)
    | some o =>
      if !(o.otp == otp_code) then (Except.error Err.IncorrectOTP, s)
      else
        let s1 := { s with otps := deleteOne (fun x => x.oid == o.oid) s.otps }
        match get_by_email email s1 with
        | some u => (Except.ok (), userSave { u with password := make_password new_password } t s1)
        | none => (Except.error Err.UserNotFound, s1)

/-- The `punch_in` view, after the external JWT check: resolve the
user; reject if a `punched_in` row exists (`AlreadyPunchedIn`), then if
no active session exists (`NotLoggedIn`), then if a `punched_in` row
for the same user and date exists (`AlreadyPunchedInToday`); on success
insert the pointer row, stamped `created_at := datetime.utcnow()`, and
a copy of it into the `attendance` collection. -/
def punch_in (email location latitude longitude date time : String) (t : Int) (s : Store) :
    Except Err Unit × Store :=
  match get_by_email email s with
  | none => (Except.error Err.UserNotFound, s)
  | some u =>
    match s.punched_in.find? (fun p => p.user_id == u.oid) with
    | some _ => (Except.error Err.AlreadyPunchedIn, s)
    | none =>
      match s.login_sessions.find? (fun ls => ls.user_id == u.oid && ls.is_active) with
      | none => (Except.error Err.NotLoggedIn, s)
      | some _ =>
        match s.punched_in.find? (fun p => p.user_id == u.oid && p.punched_in_date == date) with
        | some _ => (Except.error Err.AlreadyPunchedInToday, s)
        | none =>
          let doc : PunchDoc :=
            { oid := s.nextId, user_id := u.oid, username := u.username, email := u.email,
              punched_in_date := date, punched_in_time := time, location := location,
              latitude := latitude, longitude := longitude, created_at := utcnow t,
              punched_out_date := none, punched_out_time := none,
              punched_out_location := none, punched_out_latitude := none,
              punched_out_longitude := none, punched_out_at := none }
          (Except.ok (),
            { s with punched_in := s.punched_in ++ [doc],
                     attendance := s.attendance ++ [doc],
                     nextId := s.nextId + 1 })

/-- The `punch_out` view, after the external JWT check: resolve the
user; reject without an active session (`NotLoggedIn`), then without a
`punched_in` row (`NoPunchInFound`); on success `MongoAttendance.punch_out`
copies the pointer row into `punched_out` augmented with the punch-out
facet (stamped `punched_out_at := get_ist_time()`) and deletes the
pointer, after which the view patches the first open `attendance` row
of the user with the same facet, stamped `datetime.utcnow()`. -/
def punch_out (email location latitude longitude date time : String) (t : Int) (s : Store) :
    Except Err Unit × Store :=
  match get_by_email email s with
  | none => (Except.error Err.UserNotFound, s)
  | some u =>
    match get_active_session u.oid s with
    | none => (Except.error Err.NotLoggedIn, s)
    | some _ =>
      match s.punched_in.find? (fun p => p.user_id == u.oid) with
      | none => (Except.error Err.NoPunchInFound, s)
      | some rec0 =>
        let outDoc : PunchDoc :=
          { rec0 with punched_out_date := some date, punched_out_time := some time,
                      punched_out_location := some location,
                      punched_out_latitude := some latitude,
                      punched_out_longitude := some longitude,
                      punched_out_at := some (get_ist_time t) }
        let remaining := deleteOne (fun p => p.user_id == u.oid) s.punched_in
        let s1 := { s with punched_out := s.punched_out ++ [outDoc], punched_in := remaining }
        let patched := updateOne (fun a => a.user_id == u.oid && a.punched_out_date.isNone)
          (fun a =>
            { a with punched_out_date := some date, punched_out_time := some time,
                     punched_out_location := some location,
                     punched_out_latitude := some latitude,
                     punched_out_longitude := some longitude,
                     punched_out_at := some (utcnow t) }) s1.attendance
        (Except.ok (), { s1 with attendance := patched })

/-- One inbound action of the core, with all request data (including
the clock-derived date/time strings and the RNG-drawn OTP code). -/
inductive Op where
  | opSignup (username email password code : String)
  | opVerifyOtp (email code : String)
  | opLogin (email password device : String)
  | opLogout (email device : String)
  | opForgotPassword (email code : String)
  | opResetPassword (email code newpw : String)
  | opPunchIn (email loc lat lng date time : String)
  | opPunchOut (email loc lat lng date time : String)
deriving Repr, DecidableEq

/-- The store reached by dispatching one inbound action at clock `t`
(the response is discarded). -/
def applyOp (op : Op) (t : Int) (s : Store) : Store :=
  match op with
  | Op.opSignup username email password code => (signup username email password code t s).2
  | Op.opVerifyOtp email code => (verify_otp email code t s).2
  | Op.opLogin email password device => (login email password device t s).2
  | Op.opLogout email device => (logout email device t s).2
  | Op.opForgotPassword email code => (forgot_password email code t s).2
  | Op.opResetPassword email code newpw => (reset_password email code newpw t s).2
  | Op.opPunchIn email loc lat lng date time => (punch_in email loc lat lng date time t s).2
  | Op.opPunchOut email loc lat lng date time => (punch_out email loc lat lng date time t s).2

/-- Number of `punched_in` pointer rows of a user. -/
def pointerCount (uid : Nat) (s : Store) : Nat :=
  s.punched_in.countP fun p => p.user_id == uid

/-- At most one `punched_in` pointer row per user. -/
def pointerInv (s : Store) : Prop := ∀ uid : Nat, pointerCount uid s ≤ 1

/-- A verified user fixture. -/
def user1 : UserDoc :=
  { oid := 1, username := "alice", email := "a@x.com", password := make_password "pw1",
    is_verified := true, role := "employee", created_at := 19800, updated_at := 19800 }

/-- An active web session of `user1`. -/
def sess1 : LoginSessionDoc :=
  { oid := 2, user_id := 1, device_type := "web", login_time := 20000, is_active := true }

/-- A store with one verified, logged-in user and empty punch state. -/
def baseStore : Store :=
  { users := [user1], otps := [], login_sessions := [sess1], logout_sessions := [],
    punched_in := [], punched_out := [], attendance := [], nextId := 3 }

/-- Store after a first successful punch-in on 2024-01-01. -/
def c1s1 : Store :=
  (punch_in "a@x.com" "Office" "19.0" "72.8" "2024-01-01" "09:00:00" 1000 baseStore).2

/-- Store after the matching successful punch-out, same day. -/
def c1s2 : Store :=
  (punch_out "a@x.com" "Office" "19.0" "72.8" "2024-01-01" "17:00:00" 2000 c1s1).2

/-- A pointer row of `user1` for 2024-01-01 (as the punch-in view writes it). -/
def pdoc1 : PunchDoc :=
  { oid := 3, user_id := 1, username := "alice", email := "a@x.com",
    punched_in_date := "2024-01-01", punched_in_time := "09:00:00", location := "Office",
    latitude := "19.0", longitude := "72.8", created_at := 1000,
    punched_out_date := none, punched_out_time := none, punched_out_location := none,
    punched_out_latitude := none, punched_out_longitude := none, punched_out_at := none }

/-- A store where `user1` holds a PunchPointer but has no active
session (reachable by punch-in followed by logout). -/
def pointerNoSessionStore : Store :=
  { users := [user1], otps := [],
    login_sessions := [{ sess1 with is_active := false }], logout_sessions := [],
    punched_in := [pdoc1], punched_out := [], attendance := [pdoc1], nextId := 4 }

/-- A `forgot_password` OTP for `user1` created at clock 0 (IST stamp 19800). -/
def otp1 : OTPDoc :=
  { oid := 5, email := "a@x.com", otp := "123456", purpose := "forgot_password",
    is_used := false, created_at := 19800 }

/-- A store holding `user1` and the (by clock 1000: expired) reset OTP. -/
def expiredOtpStore : Store :=
  { users := [user1], otps := [otp1], login_sessions := [sess1], logout_sessions := [],
    punched_in := [], punched_out := [], attendance := [], nextId := 6 }

/-- A signup OTP for `user1`'s email, fresh at clock 1000. -/
def otp2 : OTPDoc :=
  { oid := 5, email := "a@x.com", otp := "654321", purpose := "signup",
    is_used := false, created_at := 20000 }

/-- A store with the verified `user1` and one OTP for the same email. -/
def dupSignupStore : Store :=
  { users := [user1], otps := [otp2], login_sessions := [], logout_sessions := [],
    punched_in := [], punched_out := [], attendance := [], nextId := 6 }

/-- A store with the verified `user1` and no sessions at all. -/
def freshStore : Store :=
  { users := [user1], otps := [], login_sessions := [], logout_sessions := [],
    punched_in := [], punched_out := [], attendance := [], nextId := 2 }

/-- Store after `login(user1, devA)`. -/
def c7s1 : Store := (login "a@x.com" "pw1" "devA" 100 freshStore).2

/-- Store after `login(user1, devA)` then `login(user1, devB)`. -/
def c7s2 : Store := (login "a@x.com" "pw1" "devB" 200 c7s1).2

/-- A signup OTP for `user1` created at clock 0 (IST stamp 19800). -/
def otpC9 : OTPDoc :=
  { oid := 7, email := "a@x.com", otp := "654321", purpose := "signup",
    is_used := false, created_at := 19800 }

/-- A store with `user1` and the fresh signup OTP `otpC9`. -/
def otpSignupStore : Store :=
  { users := [user1], otps := [otpC9], login_sessions := [], logout_sessions := [],
    punched_in := [], punched_out := [], attendance := [], nextId := 8 }

/-- A deactivated login session of `user1` at time 100. -/
def loginDoc1 : LoginSessionDoc :=
  { oid := 2, user_id := 1, device_type := "web", login_time := 100, is_active := false }

/-- A logout row of `user1` at time 200 (newer than `loginDoc1`). -/
def logoutDoc1 : LogoutSessionDoc :=
  { oid := 3, user_id := 1, device_type := "web", logout_time := 200 }

/-- A store where `user1` logged out after the last login. -/
def loggedOutStore : Store :=
  { users := [user1], otps := [], login_sessions := [loginDoc1],
    logout_sessions := [logoutDoc1], punched_in := [], punched_out := [],
    attendance := [], nextId := 4 }

/-- An unverified user fixture. -/
def user2 : UserDoc :=
  { oid := 9, username := "bob", email := "b@y.com", password := make_password "pwb",
    is_verified := false, role := "employee", created_at := 19800, updated_at := 19800 }

/-- A store holding only the unverified `user2`. -/
def unverifiedStore : Store :=
  { users := [user2], otps := [], login_sessions := [], logout_sessions := [],
    punched_in := [], punched_out := [], attendance := [], nextId := 10 }

theorem countP_deleteOne_le (p q : α → Bool) (l : List α) :
    List.countP p (deleteOne q l) ≤ List.countP p l := by
  induction l with
  | nil => simp [deleteOne]
  | cons x xs ih =>
    simp only [deleteOne]
    split
    · simp only [List.countP_cons]
      omega
    · simp only [List.countP_cons]
      omega

theorem find?_none_of_subpred (p q : α → Bool) (l : List α)
    (hsub : ∀ x, q x = true → p x = true) (h : l.find? p = none) : l.find? q = none := by
  rw [List.find?_eq_none] at h ⊢
  intro x hx hq
  exact h x hx (hsub x hq)

@[simp] theorem cleanup_otps_for_email_punched_in (email : String) (s : Store) :
    (cleanup_otps_for_email email s).punched_in = s.punched_in := rfl

@[simp] theorem cleanup_expired_otps_punched_in (t : Int) (s : Store) :
    (cleanup_expired_otps t s).punched_in = s.punched_in := rfl

@[simp] theorem cleanup_unverified_users_punched_in (email : String) (t : Int) (s : Store) :
    (cleanup_unverified_users email t s).punched_in = s.punched_in := rfl

@[simp] theorem userSave_punched_in (u : UserDoc) (t : Int) (s : Store) :
    (userSave u t s).punched_in = s.punched_in := rfl

@[simp] theorem create_otp_punched_in (email purpose code : String) (t : Int) (s : Store) :
    (create_otp email purpose code t s).2.punched_in = s.punched_in := rfl

@[simp] theorem createLoginSession_punched_in (uid : Nat) (d : String) (t : Int) (s : Store) :
    (createLoginSession uid d t s).2.punched_in = s.punched_in := rfl

@[simp] theorem createLogoutSession_punched_in (uid : Nat) (d : String) (t : Int) (s : Store) :
    (createLogoutSession uid d t s).punched_in = s.punched_in := rfl

@[simp] theorem foldl_createLogoutSession_punched_in (uid : Nat) (d : String) (t : Int)
    (l : List β) (s : Store) :
    (l.foldl (fun st _ => createLogoutSession uid d t st) s).punched_in = s.punched_in := by
  induction l generalizing s with
  | nil => rfl
  | cons x xs ih => simpa using ih (createLogoutSession uid d t s)

theorem create_user_punched_in (username email password role : String) (t : Int) (s : Store) :
    (create_user username email password role t s).2.punched_in = s.punched_in := by
  unfold create_user
  dsimp only
  split <;> (try dsimp only) <;> (try split) <;> (try dsimp only) <;> (try split) <;>
    (try dsimp only) <;> (try split) <;> simp

theorem signup_punched_in (username email password code : String) (t : Int) (s : Store) :
    (signup username email password code t s).2.punched_in = s.punched_in := by
  unfold signup
  split
  next _ s1 h =>
    have := create_user_punched_in username email password "employee" t s
    rw [h] at this
    exact this
  next _ s1 h =>
    have := create_user_punched_in username email password "employee" t s
    rw [h] at this
    simpa using this

theorem verify_otp_punched_in (email code : String) (t : Int) (s : Store) :
    (verify_otp email code t s).2.punched_in = s.punched_in := by
  unfold verify_otp
  dsimp only
  split <;> (try dsimp only) <;> (try split) <;> (try dsimp only) <;> (try split) <;>
    (try dsimp only) <;> (try split) <;> simp

theorem login_punched_in (email password device : String) (t : Int) (s : Store) :
    (login email password device t s).2.punched_in = s.punched_in := by
  unfold login
  dsimp only
  split <;> (try dsimp only) <;> (try split) <;> (try dsimp only) <;> (try split) <;>
    (try dsimp only) <;> (try split) <;> simp

theorem logout_punched_in (email device : String) (t : Int) (s : Store) :
    (logout email device t s).2.punched_in = s.punched_in := by
  unfold logout
  dsimp only
  split <;> (try dsimp only) <;> (try split) <;> (try dsimp only) <;> (try split) <;>
    (try dsimp only) <;> (try split) <;> simp

theorem forgot_password_punched_in (email code : String) (t : Int) (s : Store) :
    (forgot_password email code t s).2.punched_in = s.punched_in := by
  unfold forgot_password
  dsimp only
  split <;> (try dsimp only) <;> (try split) <;> (try dsimp only) <;> (try split) <;>
    (try dsimp only) <;> (try split) <;> simp

theorem pointerInv_of_eq (s s' : Store) (hps : s'.punched_in = s.punched_in)
    (h : pointerInv s) : pointerInv s' := by
  intro uid
  unfold pointerCount
  rw [hps]
  exact h uid

theorem punch_in_pointerInv (email loc lat lng date time : String) (t : Int) (s : Store)
    (h : pointerInv s) : pointerInv (punch_in email loc lat lng date time t s).2 := by
  unfold punch_in
  dsimp only
  split
  · exact h
  next u _ =>
    split
    · exact h
    next hfind =>
      split
      · exact h
      next =>
        split
        · exact h
        next =>
          intro uid
          simp only [pointerCount, List.countP_append, List.countP_cons, List.countP_nil]
          by_cases huid : u.oid = uid
          · subst huid
            have h0 : s.punched_in.countP (fun p => p.user_id == u.oid) = 0 := by
              rw [List.countP_eq_zero]
              intro a ha
              exact List.find?_eq_none.mp hfind a ha
            simp [h0]
          · have hb : (u.oid == uid) = false := by
              simpa using huid
            simpa [hb] using h uid

theorem punch_out_pointerInv (email loc lat lng date time : String) (t : Int) (s : Store)
    (h : pointerInv s) : pointerInv (punch_out email loc lat lng date time t s).2 := by
  unfold punch_out
  dsimp only
  split
  · exact h
  next u _ =>
    split
    · exact h
    next =>
      split
      · exact h
      next =>
        intro uid
        simp only [pointerCount]
        exact (countP_deleteOne_le _ _ _).trans (h uid)

theorem reset_password_punched_in (email code newpw : String) (t : Int) (s : Store) :
    (reset_password email code newpw t s).2.punched_in = s.punched_in := by
  unfold reset_password
  dsimp only
  split <;> (try dsimp only) <;> (try split) <;> (try dsimp only) <;> (try split) <;>
    (try dsimp only) <;> (try split) <;> simp

/-- C2: at most one PunchPointer (`punched_in` row) per user: a
punch-in by a user who already has a pointer fails with
`AlreadyPunchedIn` and leaves the store untouched, and every operation
of the core preserves the at-most-one-pointer invariant. -/
theorem punch_pointer_at_most_one :
    (∀ (email loc lat lng date time : String) (t : Int) (s : Store) (u : UserDoc),
        get_by_email email s = some u →
        (s.punched_in.find? (fun p => p.user_id == u.oid)).isSome = true →
        punch_in email loc lat lng date time t s = (Except.error Err.AlreadyPunchedIn, s))
    ∧ (∀ (op : Op) (t : Int) (s : Store), pointerInv s → pointerInv (applyOp op t s)) := by
  constructor
  · intro email loc lat lng date time t s u hu hp
    obtain ⟨p, hp'⟩ := Option.isSome_iff_exists.mp hp
    unfold punch_in
    rw [hu]
    dsimp only
    rw [hp']
  · intro op t s h
    cases op with
    | opSignup username email password code =>
      exact pointerInv_of_eq s _ (signup_punched_in username email password code t s) h
    | opVerifyOtp email code =>
      exact pointerInv_of_eq s _ (verify_otp_punched_in email code t s) h
    | opLogin email password device =>
      exact pointerInv_of_eq s _ (login_punched_in email password device t s) h
    | opLogout email device =>
      exact pointerInv_of_eq s _ (logout_punched_in email device t s) h
    | opForgotPassword email code =>
      exact pointerInv_of_eq s _ (forgot_password_punched_in email code t s) h
    | opResetPassword email code newpw =>
      exact pointerInv_of_eq s _ (reset_password_punched_in email code newpw t s) h
    | opPunchIn email loc lat lng date time =>
      exact punch_in_pointerInv email loc lat lng date time t s h
    | opPunchOut email loc lat lng date time =>
      exact punch_out_pointerInv email loc lat lng date time t s h

/-- Witness for `punch_pointer_at_most_one` at concrete inputs. -/
theorem punch_pointer_at_most_one_witness :
    punch_in "a@x.com" "Office" "19.0" "72.8" "2024-01-01" "18:00:00" 3000 pointerNoSessionStore
      = (Except.error Err.AlreadyPunchedIn, pointerNoSessionStore)
    ∧ pointerInv (applyOp (Op.opLogout "a@x.com" "web") 0 baseStore) := by
  constructor
  · exact punch_pointer_at_most_one.1 "a@x.com" "Office" "19.0" "72.8" "2024-01-01" "18:00:00"
      3000 pointerNoSessionStore user1 rfl rfl
  · exact punch_pointer_at_most_one.2 (Op.opLogout "a@x.com" "web") 0 baseStore
      (fun uid => by simp [pointerCount, baseStore])

/-- C1 counterexample: punch-in, punch-out, then a second punch-in by
the same user on the same calendar day succeeds (it does not fail with
`AlreadyPunchedInToday`), and afterwards two punch-in attendance rows
exist for the user and day: the same-day guard only inspects the
`punched_in` pointer collection, which the punch-out emptied. -/
theorem same_day_second_punch_in_succeeds :
    (punch_in "a@x.com" "Office" "19.0" "72.8" "2024-01-01" "09:00:00" 1000 baseStore).1
      = Except.ok ()
    ∧ (punch_out "a@x.com" "Office" "19.0" "72.8" "2024-01-01" "17:00:00" 2000 c1s1).1
      = Except.ok ()
    ∧ (punch_in "a@x.com" "Office" "19.0" "72.8" "2024-01-01" "18:00:00" 3000 c1s2).1
      ≠ Except.error Err.AlreadyPunchedInToday
    ∧ (punch_in "a@x.com" "Office" "19.0" "72.8" "2024-01-01" "18:00:00" 3000 c1s2).1
      = Except.ok ()
    ∧ ((punch_in "a@x.com" "Office" "19.0" "72.8" "2024-01-01" "18:00:00" 3000 c1s2).2.attendance.countP
        fun a => a.user_id == 1 && a.punched_in_date == "2024-01-01") = 2 :=
  ⟨rfl, rfl, fun h => Except.noConfusion h, rfl, by decide⟩

theorem punch_in_success_spec
    (email loc lat lng date time : String) (t : Int) (s : Store) (u : UserDoc)
    (hu : get_by_email email s = some u)
    (hnp : s.punched_in.find? (fun p => p.user_id == u.oid) = none)
    (hsess : (s.login_sessions.find? (fun ls => ls.user_id == u.oid && ls.is_active)).isSome
      = true) :
    (punch_in email loc lat lng date time t s).1 = Except.ok ()
    ∧ ((punch_in email loc lat lng date time t s).2.attendance.countP
        fun a => a.user_id == u.oid && a.punched_in_date == date)
      = (s.attendance.countP fun a => a.user_id == u.oid && a.punched_in_date == date) + 1 := by
  obtain ⟨ls, hls⟩ := Option.isSome_iff_exists.mp hsess
  have hnp2 : s.punched_in.find? (fun p => p.user_id == u.oid && p.punched_in_date == date)
      = none :=
    find?_none_of_subpred _ _ _ (fun x hx => ((Bool.and_eq_true _ _).mp hx).1) hnp
  unfold punch_in
  rw [hu]
  dsimp only
  rw [hnp]
  dsimp only
  rw [hls]
  dsimp only
  rw [hnp2]
  dsimp only
  exact ⟨rfl, by simp [List.countP_append, List.countP_cons]⟩

/-- C1 (amended): the same-day guard reads only the `punched_in`
pointer collection, so whenever the user has an active session and no
pointer, a punch-in succeeds regardless of the attendance rows already
recorded for that day, and appends one more punch-in attendance row for
the user and day. -/
theorem punch_in_unbounded_same_day_records
    (email loc lat lng date time : String) (t : Int) (s : Store) (u : UserDoc)
    (hu : get_by_email email s = some u)
    (hnp : s.punched_in.find? (fun p => p.user_id == u.oid) = none)
    (hsess : (s.login_sessions.find? (fun ls => ls.user_id == u.oid && ls.is_active)).isSome
      = true) :
    (punch_in email loc lat lng date time t s).1 = Except.ok ()
    ∧ ((punch_in email loc lat lng date time t s).2.attendance.countP
        fun a => a.user_id == u.oid && a.punched_in_date == date)
      = (s.attendance.countP fun a => a.user_id == u.oid && a.punched_in_date == date) + 1 :=
  punch_in_success_spec email loc lat lng date time t s u hu hnp hsess

/-- Witness for `punch_in_unbounded_same_day_records` at the concrete
post-punch-out store. -/
theorem punch_in_unbounded_same_day_records_witness :
    (punch_in "a@x.com" "Office" "19.0" "72.8" "2024-01-01" "18:00:00" 3000 c1s2).1
      = Except.ok ()
    ∧ ((punch_in "a@x.com" "Office" "19.0" "72.8" "2024-01-01" "18:00:00" 3000 c1s2).2.attendance.countP
        fun a => a.user_id == user1.oid && a.punched_in_date == "2024-01-01")
      = (c1s2.attendance.countP
          fun a => a.user_id == user1.oid && a.punched_in_date == "2024-01-01") + 1 :=
  punch_in_unbounded_same_day_records "a@x.com" "Office" "19.0" "72.8" "2024-01-01" "18:00:00"
    3000 c1s2 user1 rfl rfl rfl

/-- C3 counterexample: a user who holds a PunchPointer but has no
active session is rejected with `AlreadyPunchedIn`, not with
`NotLoggedIn`: the pointer check runs before the session check. -/
theorem pointer_check_precedes_session_check :
    (punch_in "a@x.com" "Office" "19.0" "72.8" "2024-01-01" "11:00:00" 5000
        pointerNoSessionStore).1 = Except.error Err.AlreadyPunchedIn
    ∧ (punch_in "a@x.com" "Office" "19.0" "72.8" "2024-01-01" "11:00:00" 5000
        pointerNoSessionStore).1 ≠ Except.error Err.NotLoggedIn :=
  ⟨rfl, fun h => Err.noConfusion (Except.error.inj h)⟩

/-- C3 (amended): the punch-in checks run in the order existing
pointer (`AlreadyPunchedIn`), then active session (`NotLoggedIn`); the
same-day check can never fire because any row it would match was
already caught by the pointer check, so with no pointer and an active
session the punch-in succeeds. -/
theorem punch_in_check_order
    (email loc lat lng date time : String) (t : Int) (s : Store) (u : UserDoc)
    (hu : get_by_email email s = some u) :
    ((s.punched_in.find? (fun p => p.user_id == u.oid)).isSome = true →
        (punch_in email loc lat lng date time t s).1 = Except.error Err.AlreadyPunchedIn)
    ∧ (s.punched_in.find? (fun p => p.user_id == u.oid) = none →
        s.login_sessions.find? (fun ls => ls.user_id == u.oid && ls.is_active) = none →
        (punch_in email loc lat lng date time t s).1 = Except.error Err.NotLoggedIn)
    ∧ (s.punched_in.find? (fun p => p.user_id == u.oid) = none →
        (s.login_sessions.find? (fun ls => ls.user_id == u.oid && ls.is_active)).isSome = true →
        (punch_in email loc lat lng date time t s).1 = Except.ok ()) := by
  refine ⟨?_, ?_, ?_⟩
  · intro hp
    obtain ⟨p, hp'⟩ := Option.isSome_iff_exists.mp hp
    unfold punch_in
    rw [hu]
    dsimp only
    rw [hp']
  · intro hnp hns
    unfold punch_in
    rw [hu]
    dsimp only
    rw [hnp]
    dsimp only
    rw [hns]
  · intro hnp hs
    exact (punch_in_success_spec email loc lat lng date time t s u hu hnp hs).1

/-- Witness for `punch_in_check_order` at three concrete stores. -/
theorem punch_in_check_order_witness :
    (punch_in "a@x.com" "Office" "19.0" "72.8" "2024-01-02" "08:00:00" 90000
        pointerNoSessionStore).1 = Except.error Err.AlreadyPunchedIn
    ∧ (punch_in "a@x.com" "Office" "19.0" "72.8" "2024-01-02" "08:00:00" 90000 freshStore).1
        = Except.error Err.NotLoggedIn
    ∧ (punch_in "a@x.com" "Office" "19.0" "72.8" "2024-01-02" "08:00:00" 90000 baseStore).1
        = Except.ok () :=
  ⟨(punch_in_check_order "a@x.com" "Office" "19.0" "72.8" "2024-01-02" "08:00:00" 90000
      pointerNoSessionStore user1 rfl).1 rfl,
   (punch_in_check_order "a@x.com" "Office" "19.0" "72.8" "2024-01-02" "08:00:00" 90000
      freshStore user1 rfl).2.1 rfl rfl,
   (punch_in_check_order "a@x.com" "Office" "19.0" "72.8" "2024-01-02" "08:00:00" 90000
      baseStore user1 rfl).2.2 rfl rfl⟩

/-- C9: an unused OTP is valid exactly when strictly less than 600
seconds have elapsed since its `created_at` on the IST clock; the
signup verification accepts a matching code 599 seconds after issuance
and rejects the same code with `OTPExpired` 601 seconds after. -/
theorem otp_validity_window :
    (∀ (o : OTPDoc) (t : Int), o.is_used = false →
        (is_valid o t = true ↔ get_ist_time t - o.created_at < 600))
    ∧ (∀ (email code : String) (t0 : Int) (s : Store) (o : OTPDoc) (u : UserDoc),
        get_latest_unused email "signup" s = some o →
        o.otp = code → o.is_used = false → o.created_at = get_ist_time t0 →
        get_by_email email s = some u →
        (verify_otp email code (t0 + 599) s).1 = Except.ok ()
        ∧ (verify_otp email code (t0 + 601) s).1 = Except.error Err.OTPExpired) := by
  constructor
  · intro o t h
    simp [is_valid, h]
  · intro email code t0 s o u hlu hcode hused hc hu
    have hbeq : (o.otp == code) = true := by simp [hcode]
    have hval599 : is_valid o (t0 + 599) = true := by
      simp only [is_valid, hused, hc, get_ist_time, istOffset]
      rw [if_neg (by simp), decide_eq_true_eq]
      omega
    have hval601 : is_valid o (t0 + 601) = false := by
      simp only [is_valid, hused, hc, get_ist_time, istOffset]
      rw [if_neg (by simp), decide_eq_false_iff_not]
      omega
    constructor
    · unfold verify_otp
      rw [hlu]
      dsimp only
      simp only [hbeq, hval599, Bool.not_true, Bool.false_eq_true, if_false]
      simp only [get_by_email] at hu ⊢
      rw [hu]
    · unfold verify_otp
      rw [hlu]
      dsimp only
      simp only [hbeq, hval601, Bool.not_true, Bool.not_false, Bool.false_eq_true, if_false,
        if_true]

/-- Witness for `otp_validity_window` at concrete inputs. -/
theorem otp_validity_window_witness :
    (is_valid otpC9 100 = true ↔ get_ist_time 100 - otpC9.created_at < 600)
    ∧ (verify_otp "a@x.com" "654321" (0 + 599) otpSignupStore).1 = Except.ok ()
    ∧ (verify_otp "a@x.com" "654321" (0 + 601) otpSignupStore).1
        = Except.error Err.OTPExpired :=
  ⟨otp_validity_window.1 otpC9 100 rfl,
   (otp_validity_window.2 "a@x.com" "654321" 0 otpSignupStore otpC9 user1
      rfl rfl rfl rfl rfl).1,
   (otp_validity_window.2 "a@x.com" "654321" 0 otpSignupStore otpC9 user1
      rfl rfl rfl rfl rfl).2⟩

theorem reset_password_session_invalidated_iff_guard
    (email code newpw : String) (t : Int) (s : Store) :
    (reset_password email code newpw t s).1 = Except.error Err.SessionInvalidated ↔
      resetGuardRejects email s = true := by
  unfold reset_password
  split
  next hg => simp [hg]
  next hg =>
    have hg' : resetGuardRejects email s = false := by simpa using hg
    rw [hg']
    simp only [Bool.false_eq_true, iff_false]
    split
    · intro h
      exact Err.noConfusion (Except.error.inj h)
    · split
      · intro h
        exact Err.noConfusion (Except.error.inj h)
      · (try dsimp only)
        split
        · intro h
          exact Except.noConfusion h
        · intro h
          exact Err.noConfusion (Except.error.inj h)

/-- C6: the reset is rejected with `SessionInvalidated` exactly when
the user's latest logout row is strictly newer than the latest login
row; with no logout row, or a login newer than the logout, the reset
proceeds past this guard. -/
theorem reset_password_session_guard
    (email code newpw : String) (t : Int) (s : Store) (u : UserDoc)
    (hu : get_by_email email s = some u) :
    (reset_password email code newpw t s).1 = Except.error Err.SessionInvalidated ↔
      ∃ lo li, get_latest_logout u.oid s = some lo ∧ get_latest_login u.oid s = some li ∧
        li.login_time < lo.logout_time := by
  rw [reset_password_session_invalidated_iff_guard]
  unfold resetGuardRejects
  rw [hu]
  dsimp only
  cases hlo : get_latest_logout u.oid s with
  | none =>
    cases hli : get_latest_login u.oid s with
    | none => simp
    | some li => simp
  | some lo =>
    cases hli : get_latest_login u.oid s with
    | none => simp
    | some li =>
      simp only [decide_eq_true_eq, Option.some.injEq]
      constructor
      · intro h
        exact ⟨lo, li, rfl, rfl, h⟩
      · rintro ⟨lo', li', h1, h2, h3⟩
        cases h1
        cases h2
        exact h3

/-- Witness for `reset_password_session_guard` at the concrete
logged-out store. -/
theorem reset_password_session_guard_witness :
    (reset_password "a@x.com" "123456" "npw" 0 loggedOutStore).1
      = Except.error Err.SessionInvalidated :=
  (reset_password_session_guard "a@x.com" "123456" "npw" 0 loggedOutStore user1 rfl).mpr
    ⟨logoutDoc1, loginDoc1, rfl, rfl, by decide⟩

/-- C4 counterexample: a matching but expired (created 1000 s ago)
`forgot_password` OTP does not make the reset fail with `OTPExpired`:
the reset succeeds and the stored password hash is replaced, because
`reset_password` never consults `is_valid`. -/
theorem reset_with_expired_otp_succeeds :
    is_valid otp1 1000 = false
    ∧ (reset_password "a@x.com" "123456" "npw" 1000 expiredOtpStore).1 = Except.ok ()
    ∧ (reset_password "a@x.com" "123456" "npw" 1000 expiredOtpStore).1
        ≠ Except.error Err.OTPExpired
    ∧ ((reset_password "a@x.com" "123456" "npw" 1000 expiredOtpStore).2.users.map
        fun u => u.password) = [make_password "npw"]
    ∧ user1.password ≠ make_password "npw" :=
  ⟨rfl, rfl, fun h => Except.noConfusion h, rfl, by decide⟩

/-- C4 (amended): the reset path checks only existence and code match
of the latest unused `forgot_password` OTP, never its expiry: even when
`is_valid` is false at the reset instant, a matching code deletes the
OTP and replaces the user's password hash; `OTPExpired` is produced
only by the signup verification path. -/
theorem reset_password_ignores_expiry
    (email code newpw : String) (t : Int) (s : Store) (o : OTPDoc) (u : UserDoc)
    (hguard : resetGuardRejects email s = false)
    (hlu : get_latest_unused email "forgot_password" s = some o)
    (hcode : o.otp = code)
    (hexp : is_valid o t = false)
    (hu : get_by_email email s = some u) :
    (reset_password email code newpw t s).1 = Except.ok ()
    ∧ (reset_password email code newpw t s).2.users
      = updateOne (fun x => x.oid == u.oid)
          (fun _ => { u with password := make_password newpw, updated_at := get_ist_time t })
          s.users := by
  have hbeq : (o.otp == code) = true := by simp [hcode]
  unfold reset_password
  rw [if_neg (by simp [hguard])]
  rw [hlu]
  dsimp only
  rw [if_neg (by simp [hbeq])]
  (try dsimp only)
  simp only [get_by_email] at hu ⊢
  rw [hu]
  dsimp only [userSave]
  exact ⟨rfl, rfl⟩

/-- Witness for `reset_password_ignores_expiry` at the concrete
expired-OTP store. -/
theorem reset_password_ignores_expiry_witness :
    (reset_password "a@x.com" "123456" "npw2" 1000 expiredOtpStore).1 = Except.ok ()
    ∧ (reset_password "a@x.com" "123456" "npw2" 1000 expiredOtpStore).2.users
      = updateOne (fun x => x.oid == user1.oid)
          (fun _ => { user1 with password := make_password "npw2", updated_at := get_ist_time 1000 })
          expiredOtpStore.users :=
  reset_password_ignores_expiry "a@x.com" "123456" "npw2" 1000 expiredOtpStore otp1 user1
    rfl rfl rfl rfl rfl

/-- C5 counterexample: with a verified user and one OTP stored for the
email, `create_user` fails with `DuplicateVerifiedUser` yet the OTP row
for that email has been deleted by the cleanup that runs before the
duplicate check. -/
theorem create_user_duplicate_error_deletes_otps :
    (create_user "bob" "a@x.com" "pw2" "employee" 1000 dupSignupStore).1
      = Except.error Err.DuplicateVerifiedUser
    ∧ dupSignupStore.otps ≠ []
    ∧ (create_user "bob" "a@x.com" "pw2" "employee" 1000 dupSignupStore).2.otps = [] :=
  ⟨rfl, by decide, rfl⟩

/-- C5 (amended): OTP verification failing with `InvalidOTP` or
`OTPExpired` leaves the store unchanged, but `create_user` runs its
cleanup (deleting stale unverified users and every OTP row for the
email) before the duplicate check, so a call failing with
`DuplicateVerifiedUser` leaves the cleaned-up store, whose OTP
collection has lost all rows for that email. -/
theorem error_side_effect_freedom :
    (∀ (email code : String) (t : Int) (s : Store),
        ((verify_otp email code t s).1 = Except.error Err.InvalidOTP ∨
         (verify_otp email code t s).1 = Except.error Err.OTPExpired) →
        (verify_otp email code t s).2 = s)
    ∧ (∀ (username email pw role : String) (t : Int) (s : Store),
        (create_user username email pw role t s).1 = Except.error Err.DuplicateVerifiedUser →
        (create_user username email pw role t s).2 = cleanup_unverified_users email t s)
    ∧ (∀ (email : String) (t : Int) (s : Store),
        (cleanup_unverified_users email t s).otps
          = s.otps.filter fun o => !(o.email == email)) := by
  refine ⟨?_, ?_, ?_⟩
  · intro email code t s
    unfold verify_otp
    split
    · intro _
      rfl
    · split
      · intro _
        rfl
      · split
        · intro _
          rfl
        · (try dsimp only)
          split
          · rintro (h | h) <;> exact Except.noConfusion h
          · rintro (h | h) <;> exact Err.noConfusion (Except.error.inj h)
  · intro username email pw role t s
    unfold create_user
    dsimp only
    split
    · split
      · intro _
        rfl
      · split
        · intro h
          exact absurd (Except.error.inj h) (fun hh => Err.noConfusion hh)
        · intro h
          exact Except.noConfusion h
    · intro h
      exact Except.noConfusion h
  · intro email t s
    rfl

/-- Witness for `error_side_effect_freedom` at concrete stores. -/
theorem error_side_effect_freedom_witness :
    (verify_otp "a@x.com" "000000" 0 expiredOtpStore).2 = expiredOtpStore
    ∧ (create_user "carol" "a@x.com" "pw3" "employee" 1000 dupSignupStore).2
        = cleanup_unverified_users "a@x.com" 1000 dupSignupStore
    ∧ (cleanup_unverified_users "a@x.com" 5 dupSignupStore).otps
        = dupSignupStore.otps.filter fun o => !(o.email == "a@x.com") :=
  ⟨error_side_effect_freedom.1 "a@x.com" "000000" 0 expiredOtpStore (Or.inl rfl),
   error_side_effect_freedom.2.1 "carol" "a@x.com" "pw3" "employee" 1000 dupSignupStore rfl,
   error_side_effect_freedom.2.2 "a@x.com" 5 dupSignupStore⟩

@[simp] theorem createLogoutSession_logout_sessions (uid : Nat) (d : String) (t : Int)
    (s : Store) :
    (createLogoutSession uid d t s).logout_sessions
      = s.logout_sessions
        ++ [{ oid := s.nextId, user_id := uid, device_type := d,
              logout_time := get_ist_time t }] := rfl

@[simp] theorem createLogoutSession_login_sessions (uid : Nat) (d : String) (t : Int)
    (s : Store) :
    (createLogoutSession uid d t s).login_sessions = s.login_sessions := rfl

@[simp] theorem createLogoutSession_nextId (uid : Nat) (d : String) (t : Int) (s : Store) :
    (createLogoutSession uid d t s).nextId = s.nextId + 1 := rfl

theorem foldl_createLogoutSession_login_sessions_eq (uid : Nat) (d : String) (t : Int)
    (l : List β) (s : Store) :
    (l.foldl (fun st _ => createLogoutSession uid d t st) s).login_sessions
      = s.login_sessions := by
  induction l generalizing s with
  | nil => rfl
  | cons y ys ih => simpa using ih (createLogoutSession uid d t s)

theorem foldl_createLogoutSession_nextId (uid : Nat) (d : String) (t : Int)
    (l : List β) (s : Store) :
    (l.foldl (fun st _ => createLogoutSession uid d t st) s).nextId = s.nextId + l.length := by
  induction l generalizing s with
  | nil => simp
  | cons y ys ih =>
    simp only [List.foldl_cons, List.length_cons]
    rw [ih (createLogoutSession uid d t s)]
    simp
    omega

theorem foldl_createLogoutSession_logout_len (uid : Nat) (d : String) (t : Int)
    (l : List β) (s : Store) :
    (l.foldl (fun st _ => createLogoutSession uid d t st) s).logout_sessions.length
      = s.logout_sessions.length + l.length := by
  induction l generalizing s with
  | nil => simp
  | cons y ys ih =>
    simp only [List.foldl_cons, List.length_cons]
    rw [ih (createLogoutSession uid d t s)]
    simp
    omega

theorem foldl_createLogoutSession_logout_mem (uid : Nat) (d : String) (t : Int)
    (l : List β) (s : Store) :
    ∀ x ∈ (l.foldl (fun st _ => createLogoutSession uid d t st) s).logout_sessions,
      x ∈ s.logout_sessions
      ∨ (x.user_id = uid ∧ x.device_type = d ∧ x.logout_time = get_ist_time t) := by
  induction l generalizing s with
  | nil =>
    intro x hx
    exact Or.inl hx
  | cons y ys ih =>
    intro x hx
    rcases ih (createLogoutSession uid d t s) x (by simpa using hx) with h | h
    · rw [createLogoutSession_logout_sessions] at h
      rcases List.mem_append.mp h with h1 | h1
      · exact Or.inl h1
      · rw [List.mem_singleton] at h1
        subst h1
        exact Or.inr ⟨rfl, rfl, rfl⟩
    · exact Or.inr h

theorem filter_updateMany_deactivate (uid : Nat) (l : List LoginSessionDoc) :
    (updateMany (fun ls => ls.user_id == uid && ls.is_active)
      (fun ls => { ls with is_active := false }) l).filter
        (fun ls => ls.user_id == uid && ls.is_active) = [] := by
  rw [List.filter_eq_nil]
  intro x hx
  rw [updateMany] at hx
  rcases List.mem_map.mp hx with ⟨y, _, rfl⟩
  by_cases h : (y.user_id == uid && y.is_active) = true
  · simp [h]
  · simp [h]

theorem findOneSortDesc_of_filter_singleton (key : α → Int) (q : α → Bool) (l : List α)
    (d : α) (h : l.filter q = [d]) : findOneSortDesc key q l = some d := by
  unfold findOneSortDesc
  rw [h]
  rfl

theorem findOneSortDesc_of_filter_nil (key : α → Int) (q : α → Bool) (l : List α)
    (h : l.filter q = []) : findOneSortDesc key q l = none := by
  unfold findOneSortDesc
  rw [h]
  rfl

@[simp] theorem createLoginSession_snd_login_sessions (uid : Nat) (d : String) (t : Int)
    (s : Store) :
    (createLoginSession uid d t s).2.login_sessions
      = s.login_sessions
        ++ [{ oid := s.nextId, user_id := uid, device_type := d,
              login_time := get_ist_time t, is_active := true }] := rfl

@[simp] theorem createLoginSession_snd_logout_sessions (uid : Nat) (d : String) (t : Int)
    (s : Store) :
    (createLoginSession uid d t s).2.logout_sessions = s.logout_sessions := rfl

theorem foldl_createLogoutSession_logout_append (uid : Nat) (d : String) (t : Int)
    (l : List β) (s : Store) :
    ∃ tail, (l.foldl (fun st _ => createLogoutSession uid d t st) s).logout_sessions
      = s.logout_sessions ++ tail := by
  induction l generalizing s with
  | nil => exact ⟨[], by simp⟩
  | cons y ys ih =>
    obtain ⟨tail, htail⟩ := ih (createLogoutSession uid d t s)
    refine ⟨[{ oid := s.nextId, user_id := uid, device_type := d,
               logout_time := get_ist_time t }] ++ tail, ?_⟩
    simp only [List.foldl_cons]
    rw [htail]
    simp

/-- C7 counterexample: after `login(user1, devA)` then
`login(user1, devB)` the active session is the devB one and exactly one
LogoutSession was synthesized, but it records `device_type = "devB"`
(the device of the new login request), not deviceA. -/
theorem login_logout_sessions_record_new_device :
    (login "a@x.com" "pw1" "devB" 200 c7s1).1 = Except.ok ()
    ∧ (get_active_session 1 c7s2).map (fun l => l.device_type) = some "devB"
    ∧ c7s2.logout_sessions.map (fun l => l.device_type) = ["devB"]
    ∧ c7s2.logout_sessions.filter (fun l => l.device_type == "devA") = [] :=
  ⟨rfl, rfl, rfl, rfl⟩

/-- C7 (amended): a successful login deactivates every active session
of the user and synthesizes one LogoutSession per deactivated session,
but each synthesized row is stamped with the device type of the NEW
login request (not of the session it closes); afterwards the user's
active session is exactly the newly inserted one. -/
theorem login_deactivates_prior_sessions
    (email pw device : String) (t : Int) (s : Store) (u : UserDoc)
    (ha : authenticate email pw s = some u) (hv : u.is_verified = true) :
    (login email pw device t s).1 = Except.ok ()
    ∧ get_active_session u.oid (login email pw device t s).2
      = some { oid := s.nextId
                 + (s.login_sessions.filter fun ls => ls.user_id == u.oid && ls.is_active).length,
               user_id := u.oid, device_type := device,
               login_time := get_ist_time t, is_active := true }
    ∧ (login email pw device t s).2.logout_sessions.length
      = s.logout_sessions.length
        + (s.login_sessions.filter fun ls => ls.user_id == u.oid && ls.is_active).length
    ∧ ∀ x ∈ (login email pw device t s).2.logout_sessions,
        x ∈ s.logout_sessions
        ∨ (x.user_id = u.oid ∧ x.device_type = device ∧ x.logout_time = get_ist_time t) := by
  unfold login
  rw [ha]
  dsimp only
  rw [if_pos hv]
  dsimp only
  refine ⟨rfl, ?_, ?_, ?_⟩
  · unfold get_active_session
    apply findOneSortDesc_of_filter_singleton
    rw [createLoginSession_snd_login_sessions]
    rw [List.filter_append]
    rw [foldl_createLogoutSession_login_sessions_eq]
    rw [filter_updateMany_deactivate]
    rw [foldl_createLogoutSession_nextId]
    simp
  · rw [createLoginSession_snd_logout_sessions]
    rw [foldl_createLogoutSession_logout_len]
  · intro x hx
    rw [createLoginSession_snd_logout_sessions] at hx
    exact foldl_createLogoutSession_logout_mem u.oid device t _
      ⟨s.users, s.otps,
        updateMany (fun ls => ls.user_id == u.oid && ls.is_active)
          (fun ls => { ls with is_active := false }) s.login_sessions,
        s.logout_sessions, s.punched_in, s.punched_out, s.attendance, s.nextId⟩ x hx

/-- Witness for `login_deactivates_prior_sessions` at the concrete
one-active-session store. -/
theorem login_deactivates_prior_sessions_witness :
    (login "a@x.com" "pw1" "devC" 300 baseStore).1 = Except.ok ()
    ∧ get_active_session user1.oid (login "a@x.com" "pw1" "devC" 300 baseStore).2
      = some { oid := baseStore.nextId
                 + (baseStore.login_sessions.filter
                     fun ls => ls.user_id == user1.oid && ls.is_active).length,
               user_id := user1.oid, device_type := "devC",
               login_time := get_ist_time 300, is_active := true }
    ∧ (login "a@x.com" "pw1" "devC" 300 baseStore).2.logout_sessions.length
      = baseStore.logout_sessions.length
        + (baseStore.login_sessions.filter
            fun ls => ls.user_id == user1.oid && ls.is_active).length
    ∧ ∀ x ∈ (login "a@x.com" "pw1" "devC" 300 baseStore).2.logout_sessions,
        x ∈ baseStore.logout_sessions
        ∨ (x.user_id = user1.oid ∧ x.device_type = "devC" ∧ x.logout_time = get_ist_time 300) :=
  login_deactivates_prior_sessions "a@x.com" "pw1" "devC" 300 baseStore user1 rfl rfl

@[simp] theorem create_otp_users (email purpose code : String) (t : Int) (s : Store) :
    (create_otp email purpose code t s).2.users = s.users := rfl

@[simp] theorem create_otp_login_sessions (email purpose code : String) (t : Int) (s : Store) :
    (create_otp email purpose code t s).2.login_sessions = s.login_sessions := rfl

@[simp] theorem create_otp_logout_sessions (email purpose code : String) (t : Int)
    (s : Store) :
    (create_otp email purpose code t s).2.logout_sessions = s.logout_sessions := rfl

theorem create_otp_otps (email purpose code : String) (t : Int) (s : Store) :
    (create_otp email purpose code t s).2.otps
      = (s.otps.filter fun o => !(decide (o.created_at < get_ist_time t - 600)))
        ++ [{ oid := s.nextId, email := email, otp := code, purpose := purpose,
              is_used := false, created_at := get_ist_time t }] := rfl

/-- C8 counterexample: the punch-in view stamps the attendance row's
`created_at` with naive UTC (1000), not with the IST clock (20800),
and a single punch-out stamps `punched_out_at` as IST in the
`punched_out` copy but as naive UTC in the `attendance` row: the punch
path mixes the two time bases. -/
theorem punch_clock_base_mixing :
    c1s1.attendance.map (fun a => a.created_at) = [1000]
    ∧ get_ist_time 1000 = 20800
    ∧ (1000 : Int) ≠ 20800
    ∧ c1s2.punched_out.map (fun a => a.punched_out_at) = [some (get_ist_time 2000)]
    ∧ c1s2.attendance.map (fun a => a.punched_out_at) = [some (utcnow 2000)]
    ∧ utcnow 2000 ≠ get_ist_time 2000 :=
  ⟨rfl, rfl, by decide, rfl, rfl, by decide⟩

/-- C8 (amended): the model layer (`mongo_models.py`) stamps its "now"
values — OTP `created_at`, session times — with the fixed UTC+5:30
clock, but the punch-in view stamps the pointer/attendance
`created_at` with naive `datetime.utcnow()`; the two bases differ at
every instant, so punch records mix naive UTC with the offset base. -/
theorem punch_timestamps_use_mixed_bases :
    (∀ (email loc lat lng date time : String) (t : Int) (s : Store) (u : UserDoc),
        get_by_email email s = some u →
        s.punched_in.find? (fun p => p.user_id == u.oid) = none →
        (s.login_sessions.find? (fun ls => ls.user_id == u.oid && ls.is_active)).isSome
          = true →
        ((punch_in email loc lat lng date time t s).2.attendance.getLast?).map
          (fun a => a.created_at) = some (utcnow t))
    ∧ (∀ (email purpose code : String) (t : Int) (s : Store),
        (create_otp email purpose code t s).1.created_at = get_ist_time t)
    ∧ (∀ (uid : Nat) (d : String) (t : Int) (s : Store),
        (createLoginSession uid d t s).1.login_time = get_ist_time t)
    ∧ (∀ t : Int, utcnow t ≠ get_ist_time t) := by
  refine ⟨?_, ?_, ?_, ?_⟩
  · intro email loc lat lng date time t s u hu hnp hsess
    obtain ⟨ls, hls⟩ := Option.isSome_iff_exists.mp hsess
    have hnp2 : s.punched_in.find? (fun p => p.user_id == u.oid && p.punched_in_date == date)
        = none :=
      find?_none_of_subpred _ _ _ (fun x hx => ((Bool.and_eq_true _ _).mp hx).1) hnp
    unfold punch_in
    rw [hu]
    dsimp only
    rw [hnp]
    dsimp only
    rw [hls]
    dsimp only
    rw [hnp2]
    dsimp only
    rw [List.getLast?_concat]
    rfl
  · intro email purpose code t s
    rfl
  · intro uid d t s
    rfl
  · intro t
    simp [utcnow, get_ist_time, istOffset]

/-- Witness for `punch_timestamps_use_mixed_bases` at the base store. -/
theorem punch_timestamps_use_mixed_bases_witness :
    ((punch_in "a@x.com" "Office" "19.0" "72.8" "2024-01-03" "09:30:00" 7000
        baseStore).2.attendance.getLast?).map (fun a => a.created_at) = some (utcnow 7000)
    ∧ (create_otp "b@y.com" "signup" "111111" 7000 baseStore).1.created_at
        = get_ist_time 7000
    ∧ (createLoginSession 1 "web" 7000 baseStore).1.login_time = get_ist_time 7000
    ∧ utcnow 7000 ≠ get_ist_time 7000 :=
  ⟨punch_timestamps_use_mixed_bases.1 "a@x.com" "Office" "19.0" "72.8" "2024-01-03" "09:30:00"
      7000 baseStore user1 rfl rfl rfl,
   punch_timestamps_use_mixed_bases.2.1 "b@y.com" "signup" "111111" 7000 baseStore,
   punch_timestamps_use_mixed_bases.2.2.1 1 "web" 7000 baseStore,
   punch_timestamps_use_mixed_bases.2.2.2 7000⟩

/-- C10: neither the forgot-password nor the reset-password path
consults `is_verified`: for an existing but unverified user (with no
stored OTPs for the email and no logout rows), requesting a reset OTP
succeeds, and submitting that OTP's code replaces the stored password
hash. -/
theorem unverified_user_password_reset
    (email code newpw : String) (t0 t1 : Int) (s : Store) (u : UserDoc)
    (hu : get_by_email email s = some u)
    (hunv : u.is_verified = false)
    (hno : ∀ o ∈ s.otps, (o.email == email) = false)
    (hnolo : s.logout_sessions.filter (fun l => l.user_id == u.oid) = []) :
    (forgot_password email code t0 s).1 = Except.ok ()
    ∧ (reset_password email code newpw t1 (forgot_password email code t0 s).2).1
        = Except.ok ()
    ∧ (reset_password email code newpw t1 (forgot_password email code t0 s).2).2.users
      = updateOne (fun x => x.oid == u.oid)
          (fun _ => { u with password := make_password newpw, updated_at := get_ist_time t1 })
          s.users := by
  have hfp : (forgot_password email code t0 s).2
      = (create_otp email "forgot_password" code t0 s).2 := by
    unfold forgot_password
    rw [hu]
  have hfp1 : (forgot_password email code t0 s).1 = Except.ok () := by
    unfold forgot_password
    rw [hu]
  have hu' : get_by_email email (create_otp email "forgot_password" code t0 s).2 = some u := by
    unfold get_by_email at hu ⊢
    rw [create_otp_users]
    exact hu
  have hlo : get_latest_logout u.oid (create_otp email "forgot_password" code t0 s).2
      = none := by
    unfold get_latest_logout
    apply findOneSortDesc_of_filter_nil
    rw [create_otp_logout_sessions]
    exact hnolo
  have hguard : resetGuardRejects email (create_otp email "forgot_password" code t0 s).2
      = false := by
    unfold resetGuardRejects
    rw [hu']
    dsimp only
    rw [hlo]
  have hlu : get_latest_unused email "forgot_password"
      (create_otp email "forgot_password" code t0 s).2
      = some { oid := s.nextId, email := email, otp := code, purpose := "forgot_password",
               is_used := false, created_at := get_ist_time t0 } := by
    unfold get_latest_unused
    apply findOneSortDesc_of_filter_singleton
    rw [create_otp_otps, List.filter_append]
    have hold : ((s.otps.filter fun o => !(decide (o.created_at < get_ist_time t0 - 600))).filter
        fun o => o.email == email && o.purpose == "forgot_password" && !o.is_used) = [] := by
      rw [List.filter_eq_nil_iff]
      intro o ho hpred
      have hmem : o ∈ s.otps := (List.mem_filter.mp ho).1
      have := ((Bool.and_eq_true _ _).mp ((Bool.and_eq_true _ _).mp hpred).1).1
      rw [hno o hmem] at this
      exact Bool.noConfusion this
    rw [hold]
    simp
  have hu2 : get_by_email email
      { (create_otp email "forgot_password" code t0 s).2 with
        otps := deleteOne (fun x => x.oid == s.nextId)
          (create_otp email "forgot_password" code t0 s).2.otps } = some u := by
    unfold get_by_email at hu ⊢
    (try dsimp only)
    rw [create_otp_users]
    exact hu
  refine ⟨hfp1, ?_, ?_⟩
  · rw [hfp]
    unfold reset_password
    rw [if_neg (by simp [hguard])]
    rw [hlu]
    dsimp only
    rw [if_neg (by simp)]
    (try dsimp only)
    rw [hu2]
  · rw [hfp]
    unfold reset_password
    rw [if_neg (by simp [hguard])]
    rw [hlu]
    dsimp only
    rw [if_neg (by simp)]
    (try dsimp only)
    rw [hu2]
    dsimp only [userSave]
    rw [create_otp_users]

/-- Witness for `unverified_user_password_reset` at the concrete
unverified-user store. -/
theorem unverified_user_password_reset_witness :
    (forgot_password "b@y.com" "222333" 0 unverifiedStore).1 = Except.ok ()
    ∧ (reset_password "b@y.com" "222333" "xyz" 10
        (forgot_password "b@y.com" "222333" 0 unverifiedStore).2).1 = Except.ok ()
    ∧ (reset_password "b@y.com" "222333" "xyz" 10
        (forgot_password "b@y.com" "222333" 0 unverifiedStore).2).2.users
      = updateOne (fun x => x.oid == user2.oid)
          (fun _ => { user2 with password := make_password "xyz", updated_at := get_ist_time 10 })
          unverifiedStore.users :=
  unverified_user_password_reset "b@y.com" "222333" "xyz" 0 10 unverifiedStore user2
    rfl rfl (by simp [unverifiedStore]) rfl

end EMS
